import Mathlib

/-!
Shallow embedding of the pricing model runtime of
`src/reliant-backend/src/services/model.runtime.ts`.

JavaScript double-precision numbers are modelled exactly: finite values as
rationals (`ℚ`), with explicit markers for the non-finite doubles (`NaN`,
`Infinity`, `-Infinity`) in the type `JNum`.  Floating-point rounding is
abstracted away; estimator outputs live in `ℝ` because the neighbor
estimator divides by a real square root.

Exceptions are modelled with `Except`: every primitive of the source that can
throw (`JSON.parse` plus the explicit shape-check `throw`s, collapsed into a
`FileOutcome`; `InferenceSession.create`; `session.run`) is `Except`-valued or
carries an error alternative, and each `try`/`catch` of the source appears as
a `match` on that outcome.  The module's three mutable caches (`session`,
`simIndex`, `bucketStats`) are threaded as an explicit state `St`; the
filesystem and the ONNX runtime are an explicit read-only `World`.
-/

/-- Abstraction of a JavaScript double: a finite value (exact rational) or one
of the non-finite doubles.  Note that `JSON.parse` can produce `Infinity`
(a numeric literal beyond double range, e.g. `1e999`, parses to `Infinity`,
which still satisfies `typeof x === "number"`), and `Number(s)` on a
malformed string produces `NaN`. -/
inductive JNum where
  | fin (q : ℚ)
  | posInf
  | negInf
  | nan
  deriving DecidableEq

/-- `Number.isFinite`. -/
def JNum.isFinite : JNum → Bool
  | .fin _ => true
  | _ => false

/-- The value shape `Number.isFinite(x) ? x : null` used by the source. -/
def JNum.finOpt : JNum → Option ℚ
  | .fin q => some q
  | _ => none

/-- JavaScript truthiness of a number: `0`, `-0` and `NaN` are falsy. -/
def jsTruthy : JNum → Bool
  | .fin q => q != 0
  | .nan => false
  | _ => true

/-- JavaScript `a || b` on numbers. -/
def jsOr (a b : JNum) : JNum := if jsTruthy a then a else b

/-- Truncation toward zero, as in ECMAScript `ToIntegerOrInfinity`. -/
def jsTrunc (q : ℚ) : ℤ := if 0 ≤ q then ⌊q⌋ else ⌈q⌉

/-- `Math.min(a, n)` where the second argument is an array length. -/
def jsMinNat (a : JNum) (n : ℕ) : JNum :=
  match a with
  | .fin q => .fin (min q (n : ℚ))
  | .posInf => .fin (n : ℚ)
  | .negInf => .negInf
  | .nan => .nan

/-- `l.slice(0, e)` for a JavaScript array `l` and number `e`:
the end index is truncated toward zero, a negative end counts from the end of
the array, and the result is clamped to the array bounds
(`ToIntegerOrInfinity`; `NaN` truncates to `0`). -/
def jsSliceTo {α : Type} (l : List α) (e : JNum) : List α :=
  match e with
  | .posInf => l
  | .negInf => []
  | .nan => []
  | .fin q =>
    let t := jsTrunc q
    if t < 0 then l.take ((l.length : ℤ) + t).toNat else l.take t.toNat

/-- The feature record `ResidualFeatures` of the source.  The numeric fields
are produced by the (out-of-scope) feature builder, which coerces them to
finite numbers, so they are modelled as rationals. -/
structure ResidualFeatures where
  service_type : String
  timeframe : String
  channel : String
  postcode_area : String
  customer_interaction_channel : String
  qty_sum : ℚ
  line_count : ℚ
  customer_satisfaction : ℚ
  customer_total_purchases : ℚ

/-- A value of the `buckets` record of `bucket_stats.json`:
`{ n, mean, shrink_mean }`.  The per-entry fields are not shape-checked by the
loader, so they may be any double. -/
structure BucketEntry where
  n : JNum
  mean : JNum
  shrink_mean : JNum
  deriving DecidableEq

/-- The `bucket_stats.json` artifact after `JSON.parse`.  The shape check of
the loader guarantees only `typeof version === "number"`,
`typeof global_mean === "number"` and `typeof buckets === "object"`; a
non-finite double such as `Infinity` passes the `typeof` check, hence the
`JNum` field types.  The `Record<string, ...>` is an association list with
distinct keys (JSON object). -/
structure BucketStats where
  version : JNum
  global_mean : JNum
  buckets : List (String × BucketEntry)
  deriving DecidableEq

/-- One entry of a similarity-index bucket: the artifact format declares
`number[][]` rows `[qty_sum, line_count, residual]`; the embedding models the
rows as finite numeric triples (the declared format of §6 of the artifact
contract). -/
structure SimPoint where
  q : ℚ
  l : ℚ
  r : ℚ
  deriving DecidableEq

/-- The `similarity_index.json` artifact after `JSON.parse`; the shape check
guarantees only `typeof` facts for `version`, `k` and `buckets`, so `k` may be
any double. -/
structure SimilarIndex where
  version : JNum
  k : JNum
  buckets : List (String × List SimPoint)
  deriving DecidableEq

/-- JavaScript exception values, abstracted to their message. -/
abbrev JsError := String

/-- Outcome of `session.run` followed by the source's output extraction
(`out[outName]?.data`): either the first output tensor is missing
(`!data`, giving `null`) or a raw first scalar was read
(`Number(data[0])`, any double). -/
inductive OrtRunResult where
  | missingOutput
  | value (raw : JNum)

/-- An `ort.InferenceSession`, abstracted to the observable behavior of
`session.run` on the feature tensors built by `onnxResidual` (the external
`onnxruntime-node` library; a run may throw). -/
structure OrtSession where
  run : ResidualFeatures → Except JsError OrtRunResult

/-- What the filesystem holds for a JSON artifact, classified by how far
`fs.existsSync`, `JSON.parse` and the loader's shape check get. -/
inductive FileOutcome (α : Type) where
  | absent
  | parseError
  | badShape
  | parsed (a : α)

/-- `fs.existsSync` for a `FileOutcome`. -/
def fileExists {α : Type} : FileOutcome α → Bool
  | .absent => false
  | _ => true

/-- Body of the `try` block of `ensureBucketStatsLoaded`: `JSON.parse` (throws
on invalid JSON) followed by the shape check (`throw new Error` on a bad
shape).  The `absent` case is unreachable behind the `existsSync` guard. -/
def readBucketStatsTry : FileOutcome BucketStats → Except JsError BucketStats
  | .parsed bs => .ok bs
  | .badShape => .error "Invalid bucket_stats.json shape"
  | _ => .error "JSON.parse failed"

/-- Body of the `try` block of `ensureSimilarIndexLoaded`. -/
def readSimIndexTry : FileOutcome SimilarIndex → Except JsError SimilarIndex
  | .parsed idx => .ok idx
  | .badShape => .error "Invalid similarity_index.json shape"
  | _ => .error "JSON.parse failed"

/-- The read-only environment: the filesystem contents at the three artifact
paths and the behavior of `ort.InferenceSession.create` (the composite
outcome after the source's three execution-provider fallback attempts). -/
structure World where
  onnxPresent : Bool
  createSession : Except JsError OrtSession
  simFile : FileOutcome SimilarIndex
  bucketFile : FileOutcome BucketStats

/-- The module-level caches `session`, `simIndex`, `bucketStats`. -/
structure St where
  session : Option OrtSession
  simIndex : Option SimilarIndex
  bucketStats : Option BucketStats

/-- `resetModelCaches`: clears all three caches. -/
def resetModelCaches : St := { session := none, simIndex := none, bucketStats := none }

/-- `ensureModelLoaded`: returns the cached session if present; otherwise
checks `fs.existsSync` and attempts `createSession`, caching only a success
(`session = null` is kept on failure). -/
def ensureModelLoaded (w : World) (st : St) : Except JsError (Bool × St) :=
  match st.session with
  | some _ => .ok (true, st)
  | none =>
    if w.onnxPresent then
      match w.createSession with
      | .ok s => .ok (true, { st with session := some s })
      | .error _ => .ok (false, { st with session := none })
    else
      .ok (false, st)

/-- `ensureSimilarIndexLoaded`. -/
def ensureSimilarIndexLoaded (w : World) (st : St) : Except JsError (Bool × St) :=
  match st.simIndex with
  | some _ => .ok (true, st)
  | none =>
    if fileExists w.simFile then
      match readSimIndexTry w.simFile with
      | .ok idx => .ok (true, { st with simIndex := some idx })
      | .error _ => .ok (false, { st with simIndex := none })
    else
      .ok (false, st)

/-- `ensureBucketStatsLoaded`. -/
def ensureBucketStatsLoaded (w : World) (st : St) : Except JsError (Bool × St) :=
  match st.bucketStats with
  | some _ => .ok (true, st)
  | none =>
    if fileExists w.bucketFile then
      match readBucketStatsTry w.bucketFile with
      | .ok bs => .ok (true, { st with bucketStats := some bs })
      | .error _ => .ok (false, { st with bucketStats := none })
    else
      .ok (false, st)

/-- `bucketKey`: `[service_type, timeframe, channel, postcode_area].join("|")`. -/
def bucketKey (f : ResidualFeatures) : String :=
  String.intercalate "|" [f.service_type, f.timeframe, f.channel, f.postcode_area]

/-- `Number.isFinite(x) ? x : null`, landing in the estimator value type `ℝ`. -/
noncomputable def finOptR (x : JNum) : Option ℝ :=
  (x.finOpt).map (fun q => (q : ℝ))

/-- The lookup body of `bucketResidual` on a loaded artifact: the bucket's
`shrink_mean` when the bucket exists and that value is finite, else the
artifact's `global_mean` when finite, else `null`. -/
noncomputable def bucketLookupVal (bs : BucketStats) (f : ResidualFeatures) : Option ℝ :=
  match List.lookup (bucketKey f) bs.buckets with
  | some b =>
    match b.shrink_mean with
    | .fin q => some (q : ℝ)
    | _ => finOptR bs.global_mean
  | none => finOptR bs.global_mean

/-- `bucketResidual`: bucket mean with shrinkage; `null` when the artifact is
unavailable (`!ensureBucketStatsLoaded() || !bucketStats`). -/
noncomputable def bucketResidual (w : World) (st : St) (f : ResidualFeatures) :
    Except JsError (Option ℝ × St) :=
  match ensureBucketStatsLoaded w st with
  | .error e => .error e
  | .ok (loaded, st) =>
    match loaded, st.bucketStats with
    | true, some bs => .ok (bucketLookupVal bs f, st)
    | _, _ => .ok (none, st)

/-- An element of the mapped array of `knnResidual`: the source maps each
point `[q, l, r]` to `{ d: sqrt(dq*dq + dl*dl), r }`.  The embedding tracks
the distance `d` by its square `d2 = dq*dq + dl*dl ∈ ℚ` (so
`d = Real.sqrt d2`): the comparator `(a, b) => a.d - b.d` and the exact-match
test `d === 0` coincide with comparison and zero test on `d2`, because the
square root is strictly monotone and zero-preserving on `[0, ∞)`. -/
structure DistRes where
  d2 : ℚ
  r : ℚ
  deriving DecidableEq

/-- The mapped-and-sorted candidate array of `knnResidual`:
`pts.map(([q, l, r]) => ({d, r})).sort((a, b) => a.d - b.d)`.
`Array.prototype.sort` is stable and sorts ascending under this comparator;
`List.insertionSort` with `≤` on `d2` is the same stable ascending order.
`Q` and `L` are `Number(f.qty_sum) || 0` and `Number(f.line_count) || 0`,
which are the identity on the finite feature numbers. -/
def knnCandidates (f : ResidualFeatures) (pts : List SimPoint) : List DistRes :=
  let Q := f.qty_sum
  let L := f.line_count
  (pts.map (fun p =>
    { d2 := (p.q - Q) * (p.q - Q) + (p.l - L) * (p.l - L), r := p.r })).insertionSort
    (fun a b => a.d2 ≤ b.d2)

/-- The `top` array of `knnResidual`:
`...sort(...).slice(0, Math.min(simIndex.k || 5, pts.length))`. -/
def knnTop (idx : SimilarIndex) (f : ResidualFeatures) (pts : List SimPoint) :
    List DistRes :=
  jsSliceTo (knnCandidates f pts) (jsMinNat (jsOr idx.k (.fin 5)) pts.length)

/-- The weight of one selected neighbor:
`d === 0 ? 1e6 : 1 / d`, with `d = Real.sqrt d2`. -/
noncomputable def knnWeight (p : DistRes) : ℝ :=
  if p.d2 = 0 then 1000000 else 1 / Real.sqrt (p.d2 : ℝ)

/-- The `den` accumulator of `knnResidual`. -/
noncomputable def knnDen (top : List DistRes) : ℝ :=
  (top.map knnWeight).sum

/-- The `num` accumulator of `knnResidual`. -/
noncomputable def knnNum (top : List DistRes) : ℝ :=
  (top.map (fun p => knnWeight p * (p.r : ℝ))).sum

/-- The tail of `knnResidual`: `if (den <= 0) return null;` then
`est = num / den` (in the exact-real model `est` is a real number whenever
`den > 0`, so the final `Number.isFinite(est)` guard of the source, which
protects against double overflow, is identically true here). -/
noncomputable def knnEstimate (top : List DistRes) : Option ℝ :=
  if knnDen top ≤ 0 then none else some (knnNum top / knnDen top)

/-- The lookup body of `knnResidual` on a loaded index:
`const pts = simIndex.buckets[key]; if (!pts || !pts.length) return null;`
then select and average the neighbors. -/
noncomputable def knnLookupVal (idx : SimilarIndex) (f : ResidualFeatures) : Option ℝ :=
  match List.lookup (bucketKey f) idx.buckets with
  | none => none
  | some pts =>
    if pts.length = 0 then none else knnEstimate (knnTop idx f pts)

/-- `knnResidual`: k-nearest-neighbor estimate on `(qty_sum, line_count)`
within the feature's bucket; `null` when the artifact is unavailable. -/
noncomputable def knnResidual (w : World) (st : St) (f : ResidualFeatures) :
    Except JsError (Option ℝ × St) :=
  match ensureSimilarIndexLoaded w st with
  | .error e => .error e
  | .ok (loaded, st) =>
    match loaded, st.simIndex with
    | true, some idx => .ok (knnLookupVal idx f, st)
    | _, _ => .ok (none, st)

/-- The inference body of `onnxResidual` on a loaded session: the
`try`/`catch` around `session.run` converts a thrown error to `null`; a
missing output tensor gives `null`; a finite raw first scalar is clamped by
`Math.max(0, raw)`; a non-finite one gives `null`. -/
noncomputable def onnxRunVal (s : OrtSession) (f : ResidualFeatures) : Option ℝ :=
  match s.run f with
  | .error _ => none
  | .ok .missingOutput => none
  | .ok (.value raw) =>
    match raw with
    | .fin q => some (max 0 (q : ℝ))
    | _ => none

/-- `onnxResidual`: run the loaded model on the feature record; `null` when
the model is unavailable (`!(await ensureModelLoaded()) || !session`). -/
noncomputable def onnxResidual (w : World) (st : St) (f : ResidualFeatures) :
    Except JsError (Option ℝ × St) :=
  match ensureModelLoaded w st with
  | .error e => .error e
  | .ok (loaded, st) =>
    match loaded, st.session with
    | true, some s => .ok (onnxRunVal s f, st)
    | _, _ => .ok (none, st)

/-- The normalized blend weights `{ wb, wk, wo }` computed once at module
load.  The components are already normalized, hence finite rationals. -/
structure BlendWeights where
  wb : ℚ
  wk : ℚ
  wo : ℚ
  deriving DecidableEq

/-- One component of the `BLEND_WEIGHTS` initializer:
`(Number.isFinite(x) && x >= 0 ? x : 0)`. -/
def sanitizeWeight (x : JNum) : ℚ :=
  match x with
  | .fin q => if 0 ≤ q then q else 0
  | _ => 0

/-- The `BLEND_WEIGHTS` initializer, as a function of the three raw parse
results `Number(component.trim())` of the configured blend string (the
splitting and `Number` parsing of the environment string are abstracted to
their `JNum` outcomes).  The sum falls back to `1` through `|| 1` when it is
`0`. -/
def mkBlendWeights (b k o : JNum) : BlendWeights :=
  let wb := sanitizeWeight b
  let wk := sanitizeWeight k
  let wo := sanitizeWeight o
  let s0 := wb + wk + wo
  let s := if s0 = 0 then 1 else s0
  { wb := wb / s, wk := wk / s, wo := wo / s }

/-- `BLEND_WEIGHTS` under the default configuration string
`"0.70,0.25,0.05"`: `Number("0.70") = 0.70` and so on. -/
def defaultBlendWeights : BlendWeights :=
  mkBlendWeights (.fin 0.70) (.fin 0.25) (.fin 0.05)

/-- The blending tail of `predictResidual`: build `parts` from the estimator
results in order bucket, knn, onnx; `if (!parts.length) return null`;
`wsum = parts.reduce(...) || 1`; return
`Math.max(0, parts.reduce((s, p) => s + p.v * (p.w / wsum), 0))`. -/
noncomputable def blendParts (W : BlendWeights) (b k o : Option ℝ) : Option ℝ :=
  let parts : List (ℝ × ℚ) :=
    (b.map (fun v => (v, W.wb))).toList ++
    (k.map (fun v => (v, W.wk))).toList ++
    (o.map (fun v => (v, W.wo))).toList
  if parts.length = 0 then none
  else
    let wsum := (parts.map (fun p => p.2)).sum
    let wsum := if wsum = 0 then 1 else wsum
    some (max 0 ((parts.map (fun p => p.1 * ((p.2 : ℝ) / (wsum : ℝ)))).sum))

/-- `predictResidual`: the public blended residual.  `W` is the module
constant `BLEND_WEIGHTS` (see `mkBlendWeights`). -/
noncomputable def predictResidual (W : BlendWeights) (w : World) (st : St)
    (f : ResidualFeatures) : Except JsError (Option ℝ × St) :=
  match bucketResidual w st f with
  | .error e => .error e
  | .ok (b, st) =>
    match knnResidual w st f with
    | .error e => .error e
    | .ok (k, st) =>
      match onnxResidual w st f with
      | .error e => .error e
      | .ok (o, st) => .ok (blendParts W b k o, st)

theorem ensureModelLoaded_isOk (w : World) (st : St) :
    ∃ p, ensureModelLoaded w st = .ok p := by
  unfold ensureModelLoaded
  cases st.session with
  | some s => exact ⟨_, rfl⟩
  | none =>
    cases hw : w.onnxPresent with
    | false => simp
    | true => cases w.createSession <;> simp

theorem ensureSimilarIndexLoaded_isOk (w : World) (st : St) :
    ∃ p, ensureSimilarIndexLoaded w st = .ok p := by
  unfold ensureSimilarIndexLoaded
  cases st.simIndex with
  | some idx => exact ⟨_, rfl⟩
  | none =>
    cases hw : fileExists w.simFile with
    | false => simp
    | true => cases readSimIndexTry w.simFile <;> simp

theorem ensureBucketStatsLoaded_isOk (w : World) (st : St) :
    ∃ p, ensureBucketStatsLoaded w st = .ok p := by
  unfold ensureBucketStatsLoaded
  cases st.bucketStats with
  | some bs => exact ⟨_, rfl⟩
  | none =>
    cases hw : fileExists w.bucketFile with
    | false => simp
    | true => cases readBucketStatsTry w.bucketFile <;> simp

theorem bucketResidual_isOk (w : World) (st : St) (f : ResidualFeatures) :
    ∃ p, bucketResidual w st f = .ok p := by
  obtain ⟨ses, sim, bst⟩ := st
  obtain ⟨wo, wc, ws, wb⟩ := w
  cases bst with
  | some bs => exact ⟨_, rfl⟩
  | none => cases wb <;> exact ⟨_, rfl⟩

theorem knnResidual_isOk (w : World) (st : St) (f : ResidualFeatures) :
    ∃ p, knnResidual w st f = .ok p := by
  obtain ⟨ses, sim, bst⟩ := st
  obtain ⟨wo, wc, ws, wb⟩ := w
  cases sim with
  | some idx => exact ⟨_, rfl⟩
  | none => cases ws <;> exact ⟨_, rfl⟩

theorem onnxResidual_isOk (w : World) (st : St) (f : ResidualFeatures) :
    ∃ p, onnxResidual w st f = .ok p := by
  obtain ⟨ses, sim, bst⟩ := st
  obtain ⟨wo, wc, ws, wb⟩ := w
  cases ses with
  | some s => exact ⟨_, rfl⟩
  | none =>
    cases wo with
    | false => exact ⟨_, rfl⟩
    | true => cases wc <;> exact ⟨_, rfl⟩

theorem predictResidual_eq (W : BlendWeights) (w : World) (st st₁ st₂ st₃ : St)
    (f : ResidualFeatures) (b k o : Option ℝ)
    (hb : bucketResidual w st f = .ok (b, st₁))
    (hk : knnResidual w st₁ f = .ok (k, st₂))
    (ho : onnxResidual w st₂ f = .ok (o, st₃)) :
    predictResidual W w st f = .ok (blendParts W b k o, st₃) := by
  unfold predictResidual
  rw [hb]
  dsimp only
  rw [hk]
  dsimp only
  rw [ho]

theorem predictResidual_isOk (W : BlendWeights) (w : World) (st : St)
    (f : ResidualFeatures) : ∃ p, predictResidual W w st f = .ok p := by
  obtain ⟨⟨b, st₁⟩, hb⟩ := bucketResidual_isOk w st f
  obtain ⟨⟨k, st₂⟩, hk⟩ := knnResidual_isOk w st₁ f
  obtain ⟨⟨o, st₃⟩, ho⟩ := onnxResidual_isOk w st₂ f
  exact ⟨_, predictResidual_eq W w st st₁ st₂ st₃ f b k o hb hk ho⟩

theorem blendParts_nonneg (W : BlendWeights) (b k o : Option ℝ) (v : ℝ)
    (h : blendParts W b k o = some v) : 0 ≤ v := by
  simp only [blendParts] at h
  split at h
  · exact absurd h (by simp)
  · rw [Option.some.injEq] at h
    subst h
    exact le_max_left 0 _

/-- Concrete feature record used by witnesses: the pricing request of the
spec's end-to-end scenario (bucket key `"supply_only|asap|website|B1"`). -/
def fixtureFeatures : ResidualFeatures :=
  { service_type := "supply_only", timeframe := "asap", channel := "website",
    postcode_area := "B1", customer_interaction_channel := "",
    qty_sum := 4, line_count := 2, customer_satisfaction := 3,
    customer_total_purchases := 0 }

/-- A world with no artifacts on disk and a failing session factory. -/
def noWorld : World :=
  { onnxPresent := false, createSession := .error "ENOENT",
    simFile := .absent, bucketFile := .absent }

/-- Bucket-stats artifact with `global_mean = 50` and no buckets. -/
def bsGlobal50 : BucketStats :=
  { version := .fin 1, global_mean := .fin 50, buckets := [] }

/-- Cache state with only the bucket-stats artifact loaded. -/
def stBucket50 : St :=
  { session := none, simIndex := none, bucketStats := some bsGlobal50 }

/-- Claim C6: for every feature record and every combination of estimator
outputs (including negative model or bucket/neighbor residuals), whenever
`predictResidual` returns a value, that value is nonnegative — the final
blended value is clamped by `Math.max(0, blended)`. -/
theorem C6_predictResidual_nonneg (W : BlendWeights) (w : World) (st st₄ : St)
    (f : ResidualFeatures) (v : ℝ)
    (h : predictResidual W w st f = .ok (some v, st₄)) : 0 ≤ v := by
  obtain ⟨⟨b, st₁⟩, hb⟩ := bucketResidual_isOk w st f
  obtain ⟨⟨k, st₂⟩, hk⟩ := knnResidual_isOk w st₁ f
  obtain ⟨⟨o, st₃⟩, ho⟩ := onnxResidual_isOk w st₂ f
  rw [predictResidual_eq W w st st₁ st₂ st₃ f b k o hb hk ho, Except.ok.injEq,
    Prod.mk.injEq] at h
  exact blendParts_nonneg W b k o v h.1

/-- Witness for C6 at a concrete input: with only the bucket artifact loaded
(`global_mean = 50`), `predictResidual` returns `50`, and the theorem yields
`0 ≤ 50`. -/
theorem C6_witness : 0 ≤ (50 : ℝ) := by
  refine C6_predictResidual_nonneg defaultBlendWeights noWorld stBucket50 stBucket50
    fixtureFeatures 50 ?_
  have hb : bucketResidual noWorld stBucket50 fixtureFeatures =
      .ok (some 50, stBucket50) := by
    have h : bucketResidual noWorld stBucket50 fixtureFeatures =
        .ok (some ((50 : ℚ) : ℝ), stBucket50) := rfl
    rw [h]
    norm_num
  have hk : knnResidual noWorld stBucket50 fixtureFeatures =
      .ok (none, stBucket50) := rfl
  have ho : onnxResidual noWorld stBucket50 fixtureFeatures =
      .ok (none, stBucket50) := rfl
  rw [predictResidual_eq _ _ _ _ _ _ _ _ _ _ hb hk ho]
  simp only [blendParts, defaultBlendWeights, mkBlendWeights, sanitizeWeight]
  norm_num

/-- Claim C7: if the bucket, neighbor and model estimators all abstain, then
`predictResidual` returns absent (`null`), not a number and not an
exception. -/
theorem C7_full_abstention (W : BlendWeights) (w : World) (st st₁ st₂ st₃ : St)
    (f : ResidualFeatures)
    (hb : bucketResidual w st f = .ok (none, st₁))
    (hk : knnResidual w st₁ f = .ok (none, st₂))
    (ho : onnxResidual w st₂ f = .ok (none, st₃)) :
    predictResidual W w st f = .ok (none, st₃) := by
  rw [predictResidual_eq W w st st₁ st₂ st₃ f none none none hb hk ho]
  rfl

/-- Witness for C7: with no artifacts on disk and empty caches, all three
estimators abstain and `predictResidual` returns absent. -/
theorem C7_witness :
    predictResidual defaultBlendWeights noWorld resetModelCaches fixtureFeatures =
      .ok (none, resetModelCaches) :=
  C7_full_abstention defaultBlendWeights noWorld resetModelCaches resetModelCaches
    resetModelCaches resetModelCaches fixtureFeatures rfl rfl rfl

/-- Claim C9: for every blend configuration, every artifact/filesystem state
(absent, unparseable, or shape-rejected files; failing session creation;
throwing inference) and every feature record, `predictResidual` never
propagates an exception: it always returns normally (`Except.ok`), so its
only observable failure mode is an absent value. -/
theorem C9_no_exception_escapes (W : BlendWeights) (w : World) (st : St)
    (f : ResidualFeatures) : ∃ p, predictResidual W w st f = .ok p :=
  predictResidual_isOk W w st f

theorem mkBlendWeights_all_zero (a b c : JNum) (ha : sanitizeWeight a = 0)
    (hb : sanitizeWeight b = 0) (hc : sanitizeWeight c = 0) :
    mkBlendWeights a b c = { wb := 0, wk := 0, wo := 0 } := by
  simp [mkBlendWeights, ha, hb, hc]

theorem blendParts_zero_weights (b k o : Option ℝ)
    (hne : ¬(b = none ∧ k = none ∧ o = none)) :
    blendParts { wb := 0, wk := 0, wo := 0 } b k o = some 0 := by
  rcases b with _ | bv <;> rcases k with _ | kv <;> rcases o with _ | ov <;>
    simp_all [blendParts]

/-- Claim C8: when all three configured blend-weight components parse to `0`
(malformed or zero entries), the normalization fallback divides by `1`, all
weights become `0`, and for every feature record for which at least one
estimator returns a value, `predictResidual` returns exactly `0` even though
the contributing estimators returned (possibly non-zero) values. -/
theorem C8_zero_weights_blend_zero (a b c : JNum)
    (ha : sanitizeWeight a = 0) (hb : sanitizeWeight b = 0) (hc : sanitizeWeight c = 0)
    (w : World) (st st₁ st₂ st₃ : St) (f : ResidualFeatures) (bo ko oo : Option ℝ)
    (h1 : bucketResidual w st f = .ok (bo, st₁))
    (h2 : knnResidual w st₁ f = .ok (ko, st₂))
    (h3 : onnxResidual w st₂ f = .ok (oo, st₃))
    (hne : ¬(bo = none ∧ ko = none ∧ oo = none)) :
    predictResidual (mkBlendWeights a b c) w st f = .ok (some 0, st₃) := by
  rw [predictResidual_eq _ w st st₁ st₂ st₃ f bo ko oo h1 h2 h3,
    mkBlendWeights_all_zero a b c ha hb hc, blendParts_zero_weights bo ko oo hne]

/-- Witness for C8: raw components `NaN` (a malformed entry), `0` and `-2`
all sanitize to `0`; with the bucket estimator contributing `50`, the blend
is exactly `0`. -/
theorem C8_witness :
    sanitizeWeight .nan = 0 ∧ sanitizeWeight (.fin 0) = 0 ∧
    sanitizeWeight (.fin (-2)) = 0 ∧
    predictResidual (mkBlendWeights .nan (.fin 0) (.fin (-2))) noWorld stBucket50
      fixtureFeatures = .ok (some 0, stBucket50) := by
  have ha : sanitizeWeight JNum.nan = 0 := rfl
  have hb : sanitizeWeight (JNum.fin 0) = 0 := by norm_num [sanitizeWeight]
  have hc : sanitizeWeight (JNum.fin (-2)) = 0 := by norm_num [sanitizeWeight]
  have h1 : bucketResidual noWorld stBucket50 fixtureFeatures =
      .ok (some ((50 : ℚ) : ℝ), stBucket50) := rfl
  refine ⟨ha, hb, hc, ?_⟩
  exact C8_zero_weights_blend_zero .nan (.fin 0) (.fin (-2)) ha hb hc noWorld
    stBucket50 stBucket50 stBucket50 stBucket50 fixtureFeatures
    (some ((50 : ℚ) : ℝ)) none none h1 rfl rfl (by simp)

theorem defaultBlendWeights_eq :
    defaultBlendWeights = { wb := 7/10, wk := 1/4, wo := 1/20 } := by
  norm_num [defaultBlendWeights, mkBlendWeights, sanitizeWeight]

theorem blendParts_bucket_knn (b k : ℝ) :
    blendParts defaultBlendWeights (some b) (some k) none =
      some (max 0 ((0.70 * b + 0.25 * k) / 0.95)) := by
  rw [defaultBlendWeights_eq]
  simp only [blendParts, Option.map_some, Option.map_none, Option.toList_some,
    Option.toList_none, List.append_nil, List.cons_append, List.nil_append]
  norm_num
  ring_nf

/-- A single selected neighbor at the exact query point: the weighted average
degenerates to that point's residual. -/
theorem knnEstimate_single_zero (r : ℚ) :
    knnEstimate [⟨0, r⟩] = some (r : ℝ) := by
  simp [knnEstimate, knnDen, knnNum, knnWeight]

/-- Similarity index holding a single exact-match point `[4, 2, 120]` for the
fixture bucket key, `k = 2`. -/
def simIdx120 : SimilarIndex :=
  { version := .fin 1, k := .fin 2,
    buckets := [("supply_only|asap|website|B1", [⟨4, 2, 120⟩])] }

/-- Cache state with bucket stats (`global_mean = 50`) and the similarity
index `simIdx120` loaded. -/
def stBoth : St :=
  { session := none, simIndex := some simIdx120, bucketStats := some bsGlobal50 }

/-- Bucket-stats artifact whose `global_mean` is `-1` (an artifact is free to
carry negative residual means). -/
def bsNeg : BucketStats :=
  { version := .fin 1, global_mean := .fin (-1), buckets := [] }

/-- Similarity index holding a single exact-match point with residual `-1`. -/
def simIdxNeg : SimilarIndex :=
  { version := .fin 1, k := .fin 2,
    buckets := [("supply_only|asap|website|B1", [⟨4, 2, -1⟩])] }

/-- Cache state loaded with the negative-residual artifacts. -/
def stNeg : St :=
  { session := none, simIndex := some simIdxNeg, bucketStats := some bsNeg }

theorem knnResidual_stBoth :
    knnResidual noWorld stBoth fixtureFeatures = .ok (some 120, stBoth) := by
  have h1 : knnResidual noWorld stBoth fixtureFeatures =
      .ok (knnEstimate (knnTop simIdx120 fixtureFeatures [⟨4, 2, 120⟩]), stBoth) := rfl
  have h2 : knnTop simIdx120 fixtureFeatures [⟨4, 2, 120⟩] = [⟨0, 120⟩] := by
    simp [knnTop, knnCandidates, simIdx120, fixtureFeatures, jsOr, jsTruthy,
      jsMinNat, jsSliceTo, jsTrunc, List.insertionSort]
  rw [h1, h2, knnEstimate_single_zero]
  norm_num

theorem knnResidual_stNeg :
    knnResidual noWorld stNeg fixtureFeatures = .ok (some (-1), stNeg) := by
  have h1 : knnResidual noWorld stNeg fixtureFeatures =
      .ok (knnEstimate (knnTop simIdxNeg fixtureFeatures [⟨4, 2, -1⟩]), stNeg) := rfl
  have h2 : knnTop simIdxNeg fixtureFeatures [⟨4, 2, -1⟩] = [⟨0, -1⟩] := by
    simp [knnTop, knnCandidates, simIdxNeg, fixtureFeatures, jsOr, jsTruthy,
      jsMinNat, jsSliceTo, jsTrunc, List.insertionSort]
  rw [h1, h2, knnEstimate_single_zero]
  norm_num

/-- Claim C1 (amended): with the default weights `(0.70, 0.25, 0.05)`, when
the bucket estimator returns `b`, the neighbor estimator returns `k` and the
model estimator abstains, `predictResidual` returns
`max(0, (0.70*b + 0.25*k) / 0.95)` — the contributing weights are
renormalized to sum to `1` (not the unrenormalized `0.70*b + 0.25*k`), and
the renormalized blend is then clamped to be nonnegative. -/
theorem C1_blend_renormalization (w : World) (st st₁ st₂ st₃ : St)
    (f : ResidualFeatures) (b k : ℝ)
    (hb : bucketResidual w st f = .ok (some b, st₁))
    (hk : knnResidual w st₁ f = .ok (some k, st₂))
    (ho : onnxResidual w st₂ f = .ok (none, st₃)) :
    predictResidual defaultBlendWeights w st f =
      .ok (some (max 0 ((0.70 * b + 0.25 * k) / 0.95)), st₃) := by
  rw [predictResidual_eq _ w st st₁ st₂ st₃ f _ _ _ hb hk ho,
    blendParts_bucket_knn b k]

/-- Witness for C1: bucket contributes `50`, the neighbor estimator
contributes `120` (single exact-match point) and the model abstains; the
result is the clamped renormalized blend. -/
theorem C1_witness :
    predictResidual defaultBlendWeights noWorld stBoth fixtureFeatures =
      .ok (some (max 0 ((0.70 * 50 + 0.25 * 120) / 0.95)), stBoth) := by
  have hb : bucketResidual noWorld stBoth fixtureFeatures =
      .ok (some 50, stBoth) := by
    have h : bucketResidual noWorld stBoth fixtureFeatures =
        .ok (some ((50 : ℚ) : ℝ), stBoth) := rfl
    rw [h]; norm_num
  have ho : onnxResidual noWorld stBoth fixtureFeatures =
      .ok (none, stBoth) := rfl
  exact C1_blend_renormalization noWorld stBoth stBoth stBoth stBoth
    fixtureFeatures 50 120 hb knnResidual_stBoth ho

/-- Counterexample to C1 as stated: with bucket value `-1` and neighbor value
`-1` (model absent), the claimed result `(0.70*(-1) + 0.25*(-1)) / 0.95 = -1`
differs from what `predictResidual` actually returns, namely `0` — the final
`Math.max(0, blended)` clamp overrides the renormalized formula for negative
blends. -/
theorem C1_counterexample :
    predictResidual defaultBlendWeights noWorld stNeg fixtureFeatures =
      .ok (some 0, stNeg) ∧
    ((0.70 * (-1) + 0.25 * (-1)) / 0.95 : ℝ) ≠ 0 := by
  constructor
  · have hb : bucketResidual noWorld stNeg fixtureFeatures =
        .ok (some (-1), stNeg) := by
      have h : bucketResidual noWorld stNeg fixtureFeatures =
          .ok (some ((-1 : ℚ) : ℝ), stNeg) := rfl
      rw [h]; norm_num
    have ho : onnxResidual noWorld stNeg fixtureFeatures =
        .ok (none, stNeg) := rfl
    rw [predictResidual_eq _ noWorld stNeg stNeg stNeg stNeg fixtureFeatures
      _ _ _ hb knnResidual_stNeg ho, blendParts_bucket_knn (-1) (-1)]
    norm_num
  · norm_num

theorem bucketResidual_loaded (w : World) (st : St) (f : ResidualFeatures)
    (bs : BucketStats) (hbs : st.bucketStats = some bs) :
    bucketResidual w st f = .ok (bucketLookupVal bs f, st) := by
  obtain ⟨ses, sim, bst⟩ := st
  obtain rfl : bst = some bs := hbs
  rfl

theorem knnResidual_loaded (w : World) (st : St) (f : ResidualFeatures)
    (idx : SimilarIndex) (hidx : st.simIndex = some idx) :
    knnResidual w st f = .ok (knnLookupVal idx f, st) := by
  obtain ⟨ses, sim, bst⟩ := st
  obtain rfl : sim = some idx := hidx
  rfl

/-- Claim C3: for every feature record whose bucket key has no entry in a
loaded bucket-stats artifact, the bucket estimator returns exactly the
artifact's `global_mean` when that is finite, and abstains exactly when it is
not finite. -/
theorem C3_bucket_fallback (w : World) (st : St) (f : ResidualFeatures)
    (bs : BucketStats) (hbs : st.bucketStats = some bs)
    (hlk : List.lookup (bucketKey f) bs.buckets = none) :
    (∀ g : ℚ, bs.global_mean = .fin g →
      bucketResidual w st f = .ok (some (g : ℝ), st)) ∧
    (bs.global_mean.isFinite = false →
      bucketResidual w st f = .ok (none, st)) := by
  rw [bucketResidual_loaded w st f bs hbs]
  have hlv : bucketLookupVal bs f = finOptR bs.global_mean := by
    simp [bucketLookupVal, hlk]
  rw [hlv]
  constructor
  · intro g hg
    rw [hg]
    rfl
  · intro hnf
    cases hge : bs.global_mean <;> simp_all [JNum.isFinite, finOptR, JNum.finOpt]

/-- Witness for C3: the fixture artifact has `global_mean = 50` and an empty
bucket table, so the fixture request falls back to `50`. -/
theorem C3_witness :
    bucketResidual noWorld stBucket50 fixtureFeatures =
      .ok (some ((50 : ℚ) : ℝ), stBucket50) :=
  (C3_bucket_fallback noWorld stBucket50 fixtureFeatures bsGlobal50 rfl rfl).1 50 rfl

/-- Claim C10 (amended): a successfully loaded bucket-stats artifact does not
by itself keep the bucket estimator from abstaining — `JSON.parse` can
produce a non-finite `global_mean` (an out-of-range literal such as `1e999`
parses to `Infinity`, which passes the `typeof`-number shape check).  What
holds is: whenever the loaded artifact's `global_mean` is finite, the bucket
estimator returns a value for every feature record; it abstains only when
neither a finite `shrink_mean` for the key nor a finite `global_mean` is
available. -/
theorem C10_loaded_finite_global_total (w : World) (st : St)
    (f : ResidualFeatures) (bs : BucketStats) (g : ℚ)
    (hbs : st.bucketStats = some bs) (hg : bs.global_mean = .fin g) :
    ∃ v : ℝ, bucketResidual w st f = .ok (some v, st) := by
  rw [bucketResidual_loaded w st f bs hbs]
  rcases hlk : List.lookup (bucketKey f) bs.buckets with _ | b
  · exact ⟨(g : ℝ), by simp [bucketLookupVal, hlk, hg, finOptR, JNum.finOpt]⟩
  · rcases hsm : b.shrink_mean with q | _ | _ | _
    · exact ⟨(q : ℝ), by simp [bucketLookupVal, hlk, hsm]⟩
    · exact ⟨(g : ℝ), by simp [bucketLookupVal, hlk, hsm, hg, finOptR, JNum.finOpt]⟩
    · exact ⟨(g : ℝ), by simp [bucketLookupVal, hlk, hsm, hg, finOptR, JNum.finOpt]⟩
    · exact ⟨(g : ℝ), by simp [bucketLookupVal, hlk, hsm, hg, finOptR, JNum.finOpt]⟩

/-- Witness for C10 (amended): the fixture artifact has the finite
`global_mean = 50`, so the estimator produces a value. -/
theorem C10_witness :
    ∃ v : ℝ, bucketResidual noWorld stBucket50 fixtureFeatures =
      .ok (some v, stBucket50) :=
  C10_loaded_finite_global_total noWorld stBucket50 fixtureFeatures bsGlobal50 50
    rfl rfl

/-- Bucket-stats artifact whose `global_mean` is `Infinity`, as produced by
`JSON.parse` on the literal `1e999`; `typeof Infinity === "number"`, so the
shape check accepts the artifact. -/
def bsInf : BucketStats :=
  { version := .fin 1, global_mean := .posInf, buckets := [] }

/-- A world whose bucket-stats file parses and shape-checks to `bsInf`. -/
def worldBucketInf : World :=
  { onnxPresent := false, createSession := .error "ENOENT",
    simFile := .absent, bucketFile := .parsed bsInf }

/-- The cache state after loading `bsInf`. -/
def stInf : St := { session := none, simIndex := none, bucketStats := some bsInf }

/-- Counterexample to C10 as stated: the bucket-stats artifact loads
successfully (shape check passed), yet the bucket estimator abstains on a
record with no bucket entry, because the parsed `global_mean` (`Infinity`)
passes the `typeof`-number check without being finite. -/
theorem C10_counterexample :
    ensureBucketStatsLoaded worldBucketInf resetModelCaches = .ok (true, stInf) ∧
    bucketResidual worldBucketInf resetModelCaches fixtureFeatures =
      .ok (none, stInf) :=
  ⟨rfl, rfl⟩

/-- A loaded session with trivial run behavior (irrelevant to load-caching). -/
def trivialSession : OrtSession := ⟨fun _ => .ok .missingOutput⟩

/-- A world where the model artifact exists and session creation succeeds. -/
def worldModelOk : World :=
  { onnxPresent := true, createSession := .ok trivialSession,
    simFile := .absent, bucketFile := .absent }

/-- A world where the model artifact file exists but session creation throws
(every execution-provider attempt of `createSession` fails). -/
def worldModelThrows : World :=
  { onnxPresent := true, createSession := .error "createSession failed",
    simFile := .absent, bucketFile := .absent }

/-- Claim C2 (amended): a failed model-load attempt — whether the artifact
file is absent or `createSession` throws (the `catch` that sets
`session = null`) — is not cached as "unavailable": the failing call returns
`false` and leaves the session cache empty and the state unchanged, so every
subsequent call re-attempts the load from disk — in particular, a later call
that finds a loadable artifact succeeds.  Only a successful load is cached;
after it, every call short-circuits on the cached handle without touching
the disk. -/
theorem C2_failed_load_is_retried (w₁ w₂ : World) (st : St) (s : OrtSession)
    (h0 : st.session = none)
    (h1 : w₁.onnxPresent = false ∨ ∃ e, w₁.createSession = .error e)
    (h2 : w₂.onnxPresent = true) (h3 : w₂.createSession = .ok s) :
    ensureModelLoaded w₁ st = .ok (false, st) ∧
    ensureModelLoaded w₂ st = .ok (true, { st with session := some s }) ∧
    (∀ w₃ : World, ensureModelLoaded w₃ { st with session := some s } =
      .ok (true, { st with session := some s })) := by
  obtain ⟨ses, sim, bst⟩ := st
  obtain rfl : ses = none := h0
  refine ⟨?_, ?_, fun w₃ => rfl⟩
  · rcases h1 with h1 | ⟨e, h1⟩
    · simp [ensureModelLoaded, h1]
    · cases hp : w₁.onnxPresent with
      | false => simp [ensureModelLoaded, hp]
      | true => simp [ensureModelLoaded, hp, h1]
  · simp [ensureModelLoaded, h2, h3]

/-- Witness for C2 (amended) at concrete worlds, exercising both failure
branches: session creation throws on a present artifact (the `catch` that
sets `session = null`), the artifact is absent, and finally a loadable
artifact makes the retry succeed and cache the session. -/
theorem C2_witness :
    ensureModelLoaded worldModelThrows resetModelCaches =
      .ok (false, resetModelCaches) ∧
    ensureModelLoaded noWorld resetModelCaches = .ok (false, resetModelCaches) ∧
    ensureModelLoaded worldModelOk resetModelCaches =
      .ok (true, { resetModelCaches with session := some trivialSession }) := by
  have ht := C2_failed_load_is_retried worldModelThrows worldModelOk
    resetModelCaches trivialSession rfl
    (Or.inr ⟨"createSession failed", rfl⟩) rfl rfl
  have ha := C2_failed_load_is_retried noWorld worldModelOk resetModelCaches
    trivialSession rfl (Or.inl rfl) rfl rfl
  exact ⟨ht.1, ha.1, ht.2.1⟩

/-- Counterexample to C2 as stated: after the load fails against a world with
no artifact, the very next call (the artifact now being present) does
re-attempt the load from disk and returns `true` with a freshly cached
session, instead of short-circuiting to the cached failure. -/
theorem C2_counterexample :
    ensureModelLoaded noWorld resetModelCaches = .ok (false, resetModelCaches) ∧
    ensureModelLoaded worldModelOk resetModelCaches =
      .ok (true, { resetModelCaches with session := some trivialSession }) ∧
    ensureModelLoaded worldModelOk resetModelCaches ≠
      .ok (false, resetModelCaches) := by
  refine ⟨rfl, rfl, ?_⟩
  intro h
  have h2 : ensureModelLoaded worldModelOk resetModelCaches =
      .ok (true, { resetModelCaches with session := some trivialSession }) := rfl
  rw [h2] at h
  simp only [Except.ok.injEq, Prod.mk.injEq] at h
  exact absurd h.1 (by simp)

theorem mem_jsSliceTo {α : Type} {l : List α} {e : JNum} {a : α}
    (h : a ∈ jsSliceTo l e) : a ∈ l := by
  cases e with
  | posInf => exact h
  | negInf => cases h
  | nan => cases h
  | fin q =>
    simp only [jsSliceTo] at h
    split at h <;> exact List.mem_of_mem_take h

theorem mem_knnTop_mem_candidates {idx : SimilarIndex} {f : ResidualFeatures}
    {pts : List SimPoint} {p : DistRes} (hp : p ∈ knnTop idx f pts) :
    p ∈ knnCandidates f pts := by
  unfold knnTop at hp
  exact mem_jsSliceTo hp

theorem knnCandidates_length (f : ResidualFeatures) (pts : List SimPoint) :
    (knnCandidates f pts).length = pts.length := by
  unfold knnCandidates
  rw [List.length_insertionSort, List.length_map]

theorem knnCandidates_d2_nonneg (f : ResidualFeatures) (pts : List SimPoint)
    (p : DistRes) (hp : p ∈ knnCandidates f pts) : 0 ≤ p.d2 := by
  simp only [knnCandidates] at hp
  rw [List.mem_insertionSort] at hp
  obtain ⟨pt, hpt, rfl⟩ := List.mem_map.1 hp
  exact add_nonneg (mul_self_nonneg _) (mul_self_nonneg _)

theorem knnWeight_pos (p : DistRes) (h : 0 ≤ p.d2) : 0 < knnWeight p := by
  unfold knnWeight
  split
  · norm_num
  · next hne =>
    have hq : (0 : ℝ) < (p.d2 : ℝ) := by
      exact_mod_cast lt_of_le_of_ne h (Ne.symm hne)
    have hs := Real.sqrt_pos.mpr hq
    positivity

theorem knnDen_pos (top : List DistRes) (hne : top ≠ [])
    (hd : ∀ p ∈ top, 0 ≤ p.d2) : 0 < knnDen top := by
  unfold knnDen
  apply List.sum_pos
  · intro x hx
    obtain ⟨p, hp, rfl⟩ := List.mem_map.1 hx
    exact knnWeight_pos p (hd p hp)
  · exact fun hmap => hne (List.map_eq_nil_iff.mp hmap)

theorem knnEstimate_some (top : List DistRes) (hne : top ≠ [])
    (hd : ∀ p ∈ top, 0 ≤ p.d2) :
    knnEstimate top = some (knnNum top / knnDen top) := by
  unfold knnEstimate
  rw [if_neg (not_le.mpr (knnDen_pos top hne hd))]

theorem knnTop_eq_take (idx : SimilarIndex) (f : ResidualFeatures)
    (pts : List SimPoint) (kN : ℕ) (hk : idx.k = .fin (kN : ℚ)) (hk1 : 1 ≤ kN) :
    knnTop idx f pts = (knnCandidates f pts).take (min kN pts.length) := by
  have hkne : (kN : ℚ) ≠ 0 := Nat.cast_ne_zero.mpr (by omega)
  have h1 : jsOr (.fin (kN : ℚ)) (.fin 5) = .fin (kN : ℚ) := by
    simp [jsOr, jsTruthy, hkne]
  have h2 : jsMinNat (.fin (kN : ℚ)) pts.length =
      .fin ((min kN pts.length : ℕ) : ℚ) := by
    simp only [jsMinNat]
    rw [Nat.cast_min]
  have ht : jsTrunc ((min kN pts.length : ℕ) : ℚ) = ((min kN pts.length : ℕ) : ℤ) := by
    unfold jsTrunc
    rw [if_pos (by positivity), Int.floor_natCast]
  unfold knnTop
  rw [hk, h1, h2]
  simp only [jsSliceTo, ht]
  rw [if_neg (by omega), Int.toNat_natCast]

/-- Claim C5: for every loaded similarity index with a configured neighbor
count `k ≥ 1` and every query whose bucket holds `n ≥ 1` points, the neighbor
estimator selects exactly `min(k, n)` nearest points — when the bucket has
fewer than `k` points it uses all of them, with no error and no padding —
and returns their inverse-distance-weighted average. -/
theorem C5_k_clamping (w : World) (st : St) (f : ResidualFeatures)
    (idx : SimilarIndex) (pts : List SimPoint) (kN : ℕ)
    (hidx : st.simIndex = some idx) (hk : idx.k = .fin (kN : ℚ)) (hk1 : 1 ≤ kN)
    (hlk : List.lookup (bucketKey f) idx.buckets = some pts) (hne : pts ≠ []) :
    (knnTop idx f pts).length = min kN pts.length ∧
    (pts.length ≤ kN → knnTop idx f pts = knnCandidates f pts) ∧
    knnResidual w st f =
      .ok (some (knnNum (knnTop idx f pts) / knnDen (knnTop idx f pts)), st) := by
  have hlen : (knnTop idx f pts).length = min kN pts.length := by
    rw [knnTop_eq_take idx f pts kN hk hk1, List.length_take,
      knnCandidates_length]
    have hn := pts.length
    omega
  have hnpos : 0 < pts.length := List.length_pos.mpr hne
  have htopne : knnTop idx f pts ≠ [] := by
    apply List.ne_nil_of_length_pos
    rw [hlen]
    omega
  have hd2 : ∀ p ∈ knnTop idx f pts, 0 ≤ p.d2 := fun p hp =>
    knnCandidates_d2_nonneg f pts p (mem_knnTop_mem_candidates hp)
  refine ⟨hlen, ?_, ?_⟩
  · intro hle
    rw [knnTop_eq_take idx f pts kN hk hk1, min_eq_right hle]
    exact List.take_of_length_le (by rw [knnCandidates_length])
  · rw [knnResidual_loaded w st f idx hidx]
    have hval : knnLookupVal idx f =
        knnEstimate (knnTop idx f pts) := by
      simp [knnLookupVal, hlk, List.length_eq_zero, hne]
    rw [hval, knnEstimate_some (knnTop idx f pts) htopne hd2]

/-- Two points for the C5 witness bucket. -/
def pts2 : List SimPoint := [⟨4, 2, 100⟩, ⟨5, 2, 140⟩]

/-- Similarity index for the C5 witness: configured `k = 3` while the bucket
holds only two points. -/
def simIdx2 : SimilarIndex :=
  { version := .fin 1, k := .fin 3,
    buckets := [("supply_only|asap|website|B1", pts2)] }

/-- Cache state with only `simIdx2` loaded. -/
def stSim2 : St := { session := none, simIndex := some simIdx2, bucketStats := none }

/-- Witness for C5: a bucket of 2 points with configured `k = 3` uses exactly
`min(3, 2) = 2` points — all of them — and returns their weighted average. -/
theorem C5_witness :
    (knnTop simIdx2 fixtureFeatures pts2).length = min 3 pts2.length ∧
    (pts2.length ≤ 3 → knnTop simIdx2 fixtureFeatures pts2 =
      knnCandidates fixtureFeatures pts2) ∧
    knnResidual noWorld stSim2 fixtureFeatures =
      .ok (some (knnNum (knnTop simIdx2 fixtureFeatures pts2) /
        knnDen (knnTop simIdx2 fixtureFeatures pts2)), stSim2) :=
  C5_k_clamping noWorld stSim2 fixtureFeatures simIdx2 pts2 3 rfl
    (by norm_num [simIdx2]) (by norm_num) rfl (by simp [pts2])

theorem sum_map_constR (l : List DistRes) (c : ℝ) :
    (l.map (fun _ => c)).sum = (l.length : ℝ) * c := by
  induction l with
  | nil => simp
  | cons a t ih =>
    simp only [List.map_cons, List.sum_cons, List.length_cons, ih]
    push_cast
    ring

theorem knnEstimate_const_zero (top : List DistRes) (r : ℚ) (hne : top ≠ [])
    (hall : ∀ p ∈ top, p = ⟨0, r⟩) : knnEstimate top = some (r : ℝ) := by
  have hw : ∀ p ∈ top, knnWeight p = 1000000 := by
    intro p hp
    rw [hall p hp]
    simp [knnWeight]
  have hden : knnDen top = (top.length : ℝ) * 1000000 := by
    unfold knnDen
    rw [List.map_congr_left hw]
    exact sum_map_constR top 1000000
  have hnum : knnNum top = (top.length : ℝ) * (1000000 * (r : ℝ)) := by
    unfold knnNum
    have hterm : ∀ p ∈ top,
        knnWeight p * (p.r : ℝ) = (fun _ => 1000000 * (r : ℝ)) p := by
      intro p hp
      rw [hw p hp, hall p hp]
    rw [List.map_congr_left hterm]
    exact sum_map_constR top (1000000 * (r : ℝ))
  have hn0 : (0 : ℝ) < (top.length : ℝ) := by
    have := List.length_pos.mpr hne
    exact_mod_cast this
  unfold knnEstimate
  rw [if_neg (not_le.mpr (by rw [hden]; exact mul_pos hn0 (by norm_num))), hnum,
    hden, mul_div_mul_left _ _ (ne_of_gt hn0),
    mul_div_cancel_left₀ _ (by norm_num)]

/-- Claim C4 (amended): when the bucket's points all lie exactly at the query
`(qty_sum, line_count)` and all carry residual `r` — in particular for a
single-point exact-match bucket — the neighbor estimator returns exactly `r`
(every selected neighbor gets the exact-match weight `1e6`, and the weighted
average of equal residuals is that residual).  With additional non-matching
points selected, the exact-match weight `1e6` merely dominates: the result is
a weighted average that in general differs from the exact-match residual
(see the counterexample). -/
theorem C4_exact_match (w : World) (st : St) (f : ResidualFeatures)
    (idx : SimilarIndex) (pts : List SimPoint) (r : ℚ) (kN : ℕ)
    (hidx : st.simIndex = some idx) (hk : idx.k = .fin (kN : ℚ)) (hk1 : 1 ≤ kN)
    (hlk : List.lookup (bucketKey f) idx.buckets = some pts) (hne : pts ≠ [])
    (hall : ∀ p ∈ pts, p.q = f.qty_sum ∧ p.l = f.line_count ∧ p.r = r) :
    knnResidual w st f = .ok (some (r : ℝ), st) := by
  have hcand : ∀ p ∈ knnCandidates f pts, p = (⟨0, r⟩ : DistRes) := by
    intro p hp
    simp only [knnCandidates] at hp
    rw [List.mem_insertionSort] at hp
    obtain ⟨pt, hpt, rfl⟩ := List.mem_map.1 hp
    obtain ⟨hq, hl, hr⟩ := hall pt hpt
    simp [hq, hl, hr]
  have htopall : ∀ p ∈ knnTop idx f pts, p = (⟨0, r⟩ : DistRes) := fun p hp =>
    hcand p (mem_knnTop_mem_candidates hp)
  have hnpos : 0 < pts.length := List.length_pos.mpr hne
  have htopne : knnTop idx f pts ≠ [] := by
    apply List.ne_nil_of_length_pos
    rw [knnTop_eq_take idx f pts kN hk hk1, List.length_take, knnCandidates_length]
    omega
  rw [knnResidual_loaded w st f idx hidx]
  have hval : knnLookupVal idx f = knnEstimate (knnTop idx f pts) := by
    simp [knnLookupVal, hlk, List.length_eq_zero, hne]
  rw [hval, knnEstimate_const_zero (knnTop idx f pts) r htopne htopall]

/-- Similarity index for the C4 witness: two points, both at the exact query
`(4, 2)`, both with residual `120`, with `k = 2`. -/
def simIdx120x2 : SimilarIndex :=
  { version := .fin 1, k := .fin 2,
    buckets := [("supply_only|asap|website|B1", [⟨4, 2, 120⟩, ⟨4, 2, 120⟩])] }

/-- Cache state with only `simIdx120x2` loaded. -/
def stSim120x2 : St :=
  { session := none, simIndex := some simIdx120x2, bucketStats := none }

/-- Witness for C4 (amended): a two-point bucket, both points at the exact
query with residual `120`; the estimate is exactly `120` (the spec's second
end-to-end scenario has the same shape with residuals `100` and `140`). -/
theorem C4_witness :
    knnResidual noWorld stSim120x2 fixtureFeatures = .ok (some 120, stSim120x2) := by
  have h := C4_exact_match noWorld stSim120x2 fixtureFeatures simIdx120x2
    [⟨4, 2, 120⟩, ⟨4, 2, 120⟩] 120 2 rfl (by norm_num [simIdx120x2]) (by norm_num)
    rfl (by simp) (by intro p hp; fin_cases hp <;> simp [fixtureFeatures])
  rw [h]
  norm_num

/-- Similarity index for the C4 counterexample: an exact-match point
`[4, 2, 100]` plus a second point `[5, 2, 0]` at distance `1`, `k = 2`. -/
def simIdx4cx : SimilarIndex :=
  { version := .fin 1, k := .fin 2,
    buckets := [("supply_only|asap|website|B1", [⟨4, 2, 100⟩, ⟨5, 2, 0⟩])] }

/-- Cache state with only `simIdx4cx` loaded. -/
def stSim4cx : St :=
  { session := none, simIndex := some simIdx4cx, bucketStats := none }

/-- Counterexample to C4 as stated: the bucket contains a point at the exact
query `(4, 2)` with residual `100`, yet the neighbor estimate is
`(1e6·100 + 1·0) / (1e6 + 1) = 100000000 / 1000001 ≠ 100`: the second
neighbor's residual does influence the result, so the exact-match weight
`1e6` dominates the average only approximately, not exactly. -/
theorem C4_counterexample :
    knnResidual noWorld stSim4cx fixtureFeatures =
      .ok (some (100000000 / 1000001), stSim4cx) ∧
    (100000000 / 1000001 : ℝ) ≠ 100 := by
  constructor
  · have h1 : knnResidual noWorld stSim4cx fixtureFeatures =
        .ok (knnEstimate (knnTop simIdx4cx fixtureFeatures
          [⟨4, 2, 100⟩, ⟨5, 2, 0⟩]), stSim4cx) := rfl
    have htop : knnTop simIdx4cx fixtureFeatures [⟨4, 2, 100⟩, ⟨5, 2, 0⟩] =
        [⟨0, 100⟩, ⟨1, 0⟩] := by
      norm_num [knnTop, knnCandidates, simIdx4cx, fixtureFeatures, jsOr, jsTruthy,
        jsMinNat, jsSliceTo, jsTrunc, List.insertionSort, List.orderedInsert]
    have hest : knnEstimate [(⟨0, 100⟩ : DistRes), ⟨1, 0⟩] =
        some (100000000 / 1000001) := by
      norm_num [knnEstimate, knnDen, knnNum, knnWeight, Real.sqrt_one]
    rw [h1, htop, hest]
  · intro h
    rw [div_eq_iff (by norm_num : (1000001 : ℝ) ≠ 0)] at h
    norm_num at h
